import Mathlib

/-!
Verification of the Matter device controller
(`src/matter_server/server/device_controller.py`).

We give a shallow embedding of the controller's pure control logic:
its retry loops, id allocation, attribute-cache maintenance,
subscription-availability bookkeeping and node-setup pipeline.
External collaborators (the CHIP SDK adapter, the RNG, storage, the
event loop) are modelled as explicit oracle arguments; everything the
controller itself computes is translated from the Python source.
-/

/-! ## Module constants (device_controller.py lines 67-98) -/

abbrev MAX_COMMISSION_RETRIES : Nat := 3
abbrev NODE_RESUBSCRIBE_ATTEMPTS_UNAVAILABLE : Nat := 3
abbrev NODE_RESUBSCRIBE_TIMEOUT_OFFLINE : Nat := 30 * 60 * 1000
abbrev TEST_NODE_START : Nat := 900000

/-- Modelled from the spec: module-wide `DATA_MODEL_SCHEMA_VERSION`
constant lives in `server/const.py`, which is not part of the sources;
only inequality with a node's `interview_version` matters, never the
concrete value. -/
abbrev DATA_MODEL_SCHEMA_VERSION : Nat := 11

/-- Modelled from the spec: `create_attribute_path_from_attribute`
(helper outside the sources) renders endpoint 0, Descriptor cluster
(id 29), PartsList attribute (id 3) as the path string `0/29/3`
(spec section 8, scenario 4). -/
def DESCRIPTOR_PARTS_LIST_ATTRIBUTE_PATH : String := "0/29/3"

/-- Modelled from the spec: endpoint 0, BasicInformation cluster
(id 40), SoftwareVersion attribute (id 9) renders as `0/40/9`
(spec section 8, scenario 5). -/
def BASIC_INFORMATION_SOFTWARE_VERSION_ATTRIBUTE_PATH : String := "0/40/9"

/-! ## Errors and events -/

/-- The error kinds surfaced by the controller, plus the SDK's
`ChipStackError` and Python's builtin `TypeError`. -/
inductive CtrlError
  | nodeNotExists
  | nodeNotReady
  | nodeCommissionFailed
  | nodeInterviewFailed
  | nodeNotResolving
  | invalidArguments
  | chipStackError
  | pyTypeError
deriving DecidableEq, Repr

/-! ## Decoded attribute values -/

/-- Decoded TLV attribute values as stored in `node.attributes`.
Endpoint lists (PartsList) decode to lists of integers, which is the
only iterable shape the bridge-endpoint logic ever receives. -/
inductive MValue
  | vNull
  | vInt (i : Int)
  | vStr (s : String)
  | vList (l : List Nat)
deriving DecidableEq, Repr

/-- Python truthiness of a decoded value (`old_value or []`). -/
def MValue.isTruthy : MValue → Bool
  | .vNull => false
  | .vInt i => i != 0
  | .vStr s => s ≠ ""
  | .vList l => l ≠ []


/-- Events pushed to API consumers via `server.signal_event`. -/
inductive ServerEvent
  | node_added (node_id : Nat)
  | node_updated (node_id : Nat)
  | node_removed (node_id : Nat)
  | attribute_updated (node_id : Nat) (path : String) (value : MValue)
  | endpoint_added (node_id : Nat) (endpoint_id : Nat)
  | endpoint_removed (node_id : Nat) (endpoint_id : Nat)
deriving DecidableEq, Repr

/-! ## Node records and the attribute map

`node.attributes` is a Python dict keyed by path strings; we embed it
as an association list with dict update semantics (replace in place,
else append). -/

structure NodeRec where
  node_id : Nat := 0
  available : Bool := false
  attributes : List (String × MValue) := []
  is_bridge : Bool := false
  interview_version : Nat := 0
deriving DecidableEq, Repr

/-- `dict.get` on the attribute map. -/
def alookup : List (String × MValue) → String → Option MValue
  | [], _ => none
  | (k, v) :: rest, key => if k = key then some v else alookup rest key

/-- `dict.__setitem__` on the attribute map. -/
def aset : List (String × MValue) → String → MValue → List (String × MValue)
  | [], key, value => [(key, value)]
  | (k, v) :: rest, key, value =>
      if k = key then (k, value) :: rest else (k, v) :: aset rest key value

/-- Python `dict.get(key)` with its default of `None`: a key missing
from the attribute map reads as null, indistinguishable from a stored
null. -/
def dictGet (attrs : List (String × MValue)) (key : String) : MValue :=
  (alookup attrs key).getD .vNull

/-! ## C1: commissioning retry loop
(`commission_with_code` lines 256-283, `commission_on_network` lines
334-367 — both methods contain the identical retry skeleton around the
adapter call, so we embed it once).

The adapter is an oracle `succ : Nat → Bool` giving the result of each
numbered attempt (`result and result.is_success` in the source).
We record the attempt numbers of the adapter calls made, the sleeps
performed (in seconds) and the loop's outcome. -/

structure CommissionLoopResult where
  calls : List Nat
  sleeps : List Nat
  outcome : Except CtrlError Unit

/-- The `while attempts <= MAX_COMMISSION_RETRIES` loop body, entered
with the current value of `attempts`:
increment `attempts`, call the adapter, `break` on success, raise
`NodeCommissionFailed` when `attempts >= MAX_COMMISSION_RETRIES`,
otherwise `await asyncio.sleep(5)` and loop.  A normal loop exit
(condition false) falls through to the success path. -/
def commission_attempts (succ : Nat → Bool) (attempts : Nat) :
    CommissionLoopResult :=
  if h : attempts ≤ MAX_COMMISSION_RETRIES then
    let a := attempts + 1
    if succ a then ⟨[a], [], .ok ()⟩
    else if MAX_COMMISSION_RETRIES ≤ a then
      ⟨[a], [], .error .nodeCommissionFailed⟩
    else
      let r := commission_attempts succ a
      ⟨a :: r.calls, 5 :: r.sleeps, r.outcome⟩
  else ⟨[], [], .ok ()⟩
termination_by MAX_COMMISSION_RETRIES + 1 - attempts
decreasing_by omega

/-- The commissioning loop of `commission_with_code` (`attempts = 0`
on entry). -/
def commission_with_code_loop (succ : Nat → Bool) : CommissionLoopResult :=
  commission_attempts succ 0

/-- The commissioning loop of `commission_on_network` is the same
skeleton (only the adapter variant called inside differs). -/
def commission_on_network_loop (succ : Nat → Bool) : CommissionLoopResult :=
  commission_attempts succ 0

/-! ## C2: interview retry loop (`commission_with_code` lines 292-303)

```python
retries = 3
while retries:
    try:
        await self.interview_node(node_id)
    except (NodeNotResolving, NodeInterviewFailed) as err:
        if retries <= 0:
            raise err
        retries -= 1
        await asyncio.sleep(5)
    else:
        break
```

The interview is an oracle `ok : Nat → Bool` over call indices (0, 1,
2, ...); `false` means the call raised `NodeInterviewFailed` /
`NodeNotResolving`. -/

inductive InterviewLoopOutcome
  | interviewOk
  /-- the `while` condition became false and control fell through to
  `_setup_node` with the last error swallowed -/
  | proceededAfterRetries
  | raisedToCaller (e : CtrlError)
deriving DecidableEq, Repr

structure InterviewLoopResult where
  calls : Nat
  sleeps : List Nat
  outcome : InterviewLoopOutcome

/-- One evaluation of the interview retry loop, recursing on the
`retries` counter (the `while retries:` condition). -/
def interview_retry_loop (ok : Nat → Bool) (callIdx : Nat) :
    Nat → InterviewLoopResult
  | 0 => ⟨0, [], .proceededAfterRetries⟩
  | retries + 1 =>
      if ok callIdx then ⟨1, [], .interviewOk⟩
      else if retries + 1 ≤ 0 then
        ⟨1, [], .raisedToCaller .nodeInterviewFailed⟩
      else
        let r := interview_retry_loop ok (callIdx + 1) retries
        ⟨r.calls + 1, 5 :: r.sleeps, r.outcome⟩

/-- The loop as entered in `commission_with_code`: `retries = 3`. -/
def commission_interview_loop (ok : Nat → Bool) : InterviewLoopResult :=
  interview_retry_loop ok 0 3

/-! ## C3: `_get_next_node_id` (lines 1078-1082) -/

structure NextIdResult where
  next : Nat
  written : Nat
  force : Bool
deriving DecidableEq, Repr

/-- `_get_next_node_id`: read `last_node_id` (default 0), add 1, write
back with `force=True`, return it.  `stored` is the current value held
by `self.server.storage`. -/
def get_next_node_id (stored : Nat) : NextIdResult :=
  let next_node_id := stored + 1
  ⟨next_node_id, next_node_id, true⟩

/-! ## C9: `import_test_node` (lines 838-859) -/

/-- `max(*(x for x in self._nodes), TEST_NODE_START) + 1`: unpacking
the generator over the node-id keys.  With an empty store this calls
`max(TEST_NODE_START)`, i.e. `max` with a single non-iterable `int`
argument, which raises `TypeError`; otherwise it is the maximum of all
known node ids and `TEST_NODE_START`, plus one. -/
def next_test_node_id (nodeIds : List Nat) : Except CtrlError Nat :=
  match nodeIds with
  | [] => .error .pyTypeError
  | _ :: _ => .ok (nodeIds.foldl max TEST_NODE_START + 1)

/-- Assign consecutive ids starting at `start` to the dump's nodes
(the `for node_dict in dump_nodes` loop). -/
def assign_test_ids (start : Nat) : List NodeRec → List (Nat × NodeRec)
  | [] => []
  | n :: rest => (start, n) :: assign_test_ids (start + 1) rest

/-- `import_test_node`. `nodes` is the `self._nodes` registry (as an
id-keyed association list), `dump` is `none` when `json_loads` raised
(→ `InvalidArguments`) and otherwise carries the parsed dump's node
records.  Returns the registry afterwards plus the call's outcome. -/
def import_test_node (nodes : List (Nat × NodeRec)) (dump : Option (List NodeRec)) :
    List (Nat × NodeRec) × Except CtrlError Unit :=
  match dump with
  | none => (nodes, .error .invalidArguments)
  | some dump_nodes =>
      match next_test_node_id (nodes.map Prod.fst) with
      | .error e => (nodes, .error e)
      | .ok start => (nodes ++ assign_test_ids start dump_nodes, .ok ())

/-! ## C10: `ping_node` guard order (lines 748-757) -/

/-- `ping_node`: the synthetic-test-range check precedes the
store-existence check.  The actual probing of a known real node
(address resolution, parallel `ping_ip`, SDK active-address merge) is
I/O against external collaborators; it is modelled by the
`pingResults` oracle. -/
def ping_node (nodes : Nat → Option NodeRec) (node_id : Nat)
    (pingResults : List (String × Bool)) :
    Except CtrlError (List (String × Bool)) :=
  if TEST_NODE_START ≤ node_id then
    .ok [("0.0.0.0", true), ("0000:1111:2222:3333:4444", true)]
  else
    match nodes node_id with
    | none => .error .nodeNotExists
    | some _ => .ok pingResults

/-! ## C4: the subscription's `attribute_updated` handler
(lines 882-926, plus `_handle_endpoints_removed` lines 1205-1219) -/

/-- `old_value or []`: Python falsy values are replaced by the empty
list before being iterated. -/
def pyOrEmptyList (old : Option MValue) : MValue :=
  match old with
  | none => .vList []
  | some v => if v.isTruthy then v else .vList []

/-- Does `pre` start the character list `cs`? -/
def leadsWith : List Char → List Char → Bool
  | [], _ => true
  | _ :: _, [] => false
  | p :: ps, c :: cs => p == c && leadsWith ps cs

/-- Python `str.startswith`. -/
def strStartsWith (s pre : String) : Bool := leadsWith pre.data s.data

/-- First-occurrence deduplication (Python `set` construction keyed by
membership; iteration order of small int sets follows insertion). -/
def pyDedupAux (seen : List Nat) : List Nat → List Nat
  | [] => []
  | x :: xs =>
      if x ∈ seen then pyDedupAux seen xs
      else x :: pyDedupAux (x :: seen) xs

def pyDedup (l : List Nat) : List Nat := pyDedupAux [] l

/-- `set(value)` over a decoded PartsList value.  The TLV decoder
yields integer lists for PartsList, the only values this branch is
invoked on; iterating any other shape is a Python `TypeError`. -/
def pySetOf : MValue → Except CtrlError (List Nat)
  | .vList l => .ok (pyDedup l)
  | _ => .error .pyTypeError

/-- `_handle_endpoints_removed`: for each removed endpoint drop every
attribute key prefixed `"{endpoint_id}/"` and emit `ENDPOINT_REMOVED`;
one node-state write is scheduled afterwards. -/
def handle_endpoints_removed (node_id : Nat)
    (attrs : List (String × MValue)) :
    List Nat → List (String × MValue) × List ServerEvent
  | [] => (attrs, [])
  | ep :: rest =>
      let attrs1 := attrs.filter
        (fun kv => !(strStartsWith kv.1 (toString ep ++ "/")))
      let r := handle_endpoints_removed node_id attrs1 rest
      (r.1, .endpoint_removed node_id ep :: r.2)

structure AttrUpdateResult where
  attributes : List (String × MValue)
  events : List ServerEvent
  writeScheduled : Bool
  /-- a `loop.create_task(self.interview_node(node_id))` was created -/
  interviewScheduled : Bool
  /-- a `_handle_endpoints_added` task was created for these endpoints -/
  endpointsAddedTask : Option (List Nat)

/-- The main path of `attribute_updated` (everything after the early
bridge-PartsList `return`): the SoftwareVersion re-interview check,
then store the new value, schedule a node-state write and emit
`ATTRIBUTE_UPDATED (node_id, path, new_value)`. -/
def attribute_updated_store (node_id : Nat) (node : NodeRec)
    (path : String) (old_value : Option MValue) (new_value : MValue) :
    AttrUpdateResult :=
  let interviewScheduled :=
    path = BASIC_INFORMATION_SOFTWARE_VERSION_ATTRIBUTE_PATH ∧
      some new_value ≠ old_value
  { attributes := aset node.attributes path new_value
    events := [.attribute_updated node_id path new_value]
    writeScheduled := true
    interviewScheduled := interviewScheduled
    endpointsAddedTask := none }

/-- `attribute_updated(path, old_value, new_value)`: if the node
`is_bridge` and the path is the Descriptor PartsList, work out
added/removed endpoints, dispatch them, and `return` — otherwise run
the store/write/emit tail. -/
def attribute_updated (node_id : Nat) (node : NodeRec) (path : String)
    (old_value : Option MValue) (new_value : MValue) :
    Except CtrlError AttrUpdateResult :=
  if node.is_bridge ∧ path = DESCRIPTOR_PARTS_LIST_ATTRIBUTE_PATH then
    match pySetOf (pyOrEmptyList old_value) with
    | .error e => .error e
    | .ok oldSet =>
        match pySetOf new_value with
        | .error e => .error e
        | .ok newSet =>
            let endpoints_removed := oldSet.filter (fun e => e ∉ newSet)
            let endpoints_added := newSet.filter (fun e => e ∉ oldSet)
            let removedResult :=
              if endpoints_removed ≠ [] then
                handle_endpoints_removed node_id node.attributes
                  endpoints_removed
              else (node.attributes, [])
            .ok { attributes := removedResult.1
                  events := removedResult.2
                  writeScheduled := endpoints_removed ≠ []
                  interviewScheduled := false
                  endpointsAddedTask :=
                    if endpoints_added ≠ [] then some endpoints_added
                    else none }
  else
    .ok (attribute_updated_store node_id node path old_value new_value)

/-! ## C5: the `resubscription_attempted` callback (lines 982-1011)
and `_node_offline` (lines 1351-1361) -/

/-- The per-node subscription availability state touched by the
callback: `node.available` and
`self._last_subscription_attempt[node_id]`. -/
structure SubState where
  available : Bool
  last_subscription_attempt : Nat
deriving DecidableEq, Repr

structure ResubResult where
  state : SubState
  events : List ServerEvent
  /-- an `asyncio.create_task(self._node_offline(node_id))` was made -/
  offlineTaskScheduled : Bool
deriving DecidableEq, Repr

/-- `resubscription_attempted(transaction, terminationError,
nextResubscribeIntervalMsec)`: increment the attempt counter; if the
node is available and the counter reached
`NODE_RESUBSCRIBE_ATTEMPTS_UNAVAILABLE`, mark unavailable and signal
`NODE_UPDATED`; if the node is (now) unavailable and the next interval
exceeds `NODE_RESUBSCRIBE_TIMEOUT_OFFLINE`, schedule `_node_offline`. -/
def resubscription_attempted (node_id : Nat) (s : SubState)
    (nextResubscribeIntervalMsec : Nat) : ResubResult :=
  let resubscription_attempt := s.last_subscription_attempt + 1
  let s1 : SubState := ⟨s.available, resubscription_attempt⟩
  let step2 :=
    if s1.available ∧
        NODE_RESUBSCRIBE_ATTEMPTS_UNAVAILABLE ≤ resubscription_attempt then
      (SubState.mk false resubscription_attempt,
        [ServerEvent.node_updated node_id])
    else (s1, ([] : List ServerEvent))
  let offline :=
    !step2.1.available &&
      decide (NODE_RESUBSCRIBE_TIMEOUT_OFFLINE < nextResubscribeIntervalMsec)
  ⟨step2.1, step2.2, offline⟩

/-- `_node_offline`: shuts the subscription down, then marks the node
unavailable and emits `NODE_UPDATED` only if it was still available. -/
def node_offline (node_id : Nat) (available : Bool) :
    Bool × List ServerEvent :=
  if !available then (available, [])
  else (false, [ServerEvent.node_updated node_id])

/-- Iterate `n` resubscription-attempted callbacks, collecting the
emitted events. -/
def iterate_resub (node_id : Nat) (iv : Nat) :
    SubState → Nat → SubState × List ServerEvent
  | s, 0 => (s, [])
  | s, n + 1 =>
      let r := resubscription_attempted node_id s iv
      let rest := iterate_resub node_id iv r.state n
      (rest.1, r.events ++ rest.2)

/-- Count the `NODE_UPDATED` events in an event list. -/
def countNodeUpdated (node_id : Nat) (evs : List ServerEvent) : Nat :=
  evs.countP (fun e => e = ServerEvent.node_updated node_id)

/-! ## C6: `read_attribute` (lines 579-646)

The adapter read plus `parse_attributes_from_read_result` are external
collaborators; their decoded output is the `decoded` argument (a dict,
hence an association list with distinct keys).  The loop below is the
cache-diffing tail of the method (lines 632-646). -/

structure ReadDiffResult where
  attributes : List (String × MValue)
  events : List ServerEvent
  /-- the `node.attributes[attr_path] = value` writes performed -/
  writes : List (String × MValue)

/-- `for attr_path, value in read_atributes.items(): ...` — write back
and emit `ATTRIBUTE_UPDATED` for each key whose value differs from the
cache (the cache is threaded through, as in the source).  The change
test is `node.attributes.get(attr_path) != value`, i.e. `dict.get`
with `None` default: a key missing from the cache compares equal to a
decoded null, and then nothing is written or emitted for it. -/
def read_attribute_diff (node_id : Nat) (attrs : List (String × MValue)) :
    List (String × MValue) → ReadDiffResult
  | [] => ⟨attrs, [], []⟩
  | (attr_path, value) :: rest =>
      if dictGet attrs attr_path = value then
        read_attribute_diff node_id attrs rest
      else
        let r := read_attribute_diff node_id (aset attrs attr_path value) rest
        ⟨r.attributes,
          .attribute_updated node_id attr_path value :: r.events,
          (attr_path, value) :: r.writes⟩

structure ReadAttrResult where
  returned : List (String × MValue)
  attributes : List (String × MValue)
  events : List ServerEvent
  writes : List (String × MValue)
  writeScheduled : Bool

/-- `read_attribute(node_id, attribute_path, fabric_filtered)`:
reject unknown/unavailable nodes with `NodeNotReady`; synthetic test
nodes return cached values only; otherwise diff the decoded adapter
read result against the cached attributes (`values_changed` decides
whether a node-state write is scheduled) and return the full decoded
map. -/
def read_attribute (nodes : Nat → Option NodeRec) (node_id : Nat)
    (attribute_paths : List String)
    (decoded : List (String × MValue)) :
    Except CtrlError ReadAttrResult :=
  match nodes node_id with
  | none => .error .nodeNotReady
  | some node =>
      if !node.available then .error .nodeNotReady
      else if TEST_NODE_START ≤ node_id then
        .ok ⟨attribute_paths.map
              (fun p => (p, (alookup node.attributes p).getD .vNull)),
            node.attributes, [], [], false⟩
      else
        let r := read_attribute_diff node_id node.attributes decoded
        .ok ⟨decoded, r.attributes, r.events, r.writes,
          decide (r.writes ≠ [])⟩

/-! ## C7: `open_commissioning_window` (lines 408-450) -/

structure CommissioningParameters where
  setup_pin_code : Nat
  setup_manual_code : String
  setup_qr_code : String
deriving DecidableEq, Repr

structure OCWResult where
  params : CommissioningParameters
  /-- the adapter call made, as
  `(node_id, timeout, iteration, discriminator, option)` -/
  adapterCall : Option (Nat × Nat × Nat × Nat × Nat)
  /-- new entry stored in `_known_commissioning_params` -/
  cached : Option (Nat × CommissioningParameters)
  /-- `loop.call_later(timeout, _known_commissioning_params.pop, ...)`
  as `(delay, node_id)` -/
  clearScheduled : Option (Nat × Nat)

/-- `open_commissioning_window`: `NodeNotReady` for unknown or
unavailable nodes; cached parameters are returned without touching the
adapter; otherwise a missing discriminator is drawn by
`randint(0, 4095)` (the `rand` oracle), the adapter is called, its
`{pin, manual, qr}` result cached, and a cache-clear scheduled after
`timeout` seconds. -/
def open_commissioning_window (nodes : Nat → Option NodeRec)
    (known_params : Nat → Option CommissioningParameters)
    (sdk : Nat → Nat → Nat → Nat → Nat → CommissioningParameters)
    (rand : Nat) (node_id : Nat) (timeout : Nat := 300)
    (iteration : Nat := 1000) (opt : Nat := 1)
    (discriminator : Option Nat := none) :
    Except CtrlError OCWResult :=
  match nodes node_id with
  | none => .error .nodeNotReady
  | some node =>
      if !node.available then .error .nodeNotReady
      else
        match known_params node_id with
        | some params => .ok ⟨params, none, none, none⟩
        | none =>
            let disc := match discriminator with
              | none => rand
              | some d => d
            let params := sdk node_id timeout iteration disc opt
            .ok ⟨params, some (node_id, timeout, iteration, disc, opt),
              some (node_id, params), some (timeout, node_id)⟩

/-! ## C8: `_setup_node` (lines 1084-1203)

The body's three adapter interactions are modelled by an environment
oracle; each can complete, fail with the exception the source catches
there (`NodeNotResolving` / `NodeInterviewFailed` / `ChipStackError`
→ logged early `return`), or raise something uncaught that propagates.
The `try`/`finally` always cancels the watchdog timer and discards the
node id from `_nodes_in_setup`. -/

inductive SetupStep
  | ok
  /-- the exception kind caught at this step: logged, then `return` -/
  | caughtFail
  | raised (e : CtrlError)

structure SetupEnv where
  caseSession : SetupStep
  interview : SetupStep
  subscribe : SetupStep
  /-- result of `check_polled_attributes(node_data)` -/
  polled_attributes : List String

/-- Body outcome: the propagated error (if any), the number of adapter
operations performed, and whether polled attributes were registered. -/
def setup_node_body (env : SetupEnv) (node : NodeRec) :
    Except CtrlError Unit × Nat × Bool :=
  match env.caseSession with
  | .raised e => (.error e, 1, false)
  | .caughtFail => (.ok (), 1, false)
  | .ok =>
      let needInterview :=
        node.attributes.isEmpty ||
          node.interview_version != DATA_MODEL_SCHEMA_VERSION
      let subscribeFrom : Nat → Except CtrlError Unit × Nat × Bool :=
        fun calls =>
          match env.subscribe with
          | .raised e => (.error e, calls + 1, false)
          | .caughtFail => (.ok (), calls + 1, false)
          | .ok => (.ok (), calls + 1, env.polled_attributes ≠ [])
      if needInterview then
        match env.interview with
        | .raised e => (.error e, 2, false)
        | .caughtFail => (.ok (), 2, false)
        | .ok => subscribeFrom 2
      else subscribeFrom 1

structure SetupResult where
  result : Except CtrlError Unit
  nodes_in_setup : Nat → Bool
  watchdogArmed : Bool
  watchdogCancelled : Bool
  sdkCalls : Nat
  polledRegistered : Bool

/-- `_setup_node(node_id)`: `NodeNotExists` for unknown ids; a no-op
when the id is already in `_nodes_in_setup`; otherwise add the id,
arm the long-setup watchdog, run the body, and in the `finally` block
cancel the watchdog and discard the id again — on success, early
return and exception alike. -/
def setup_node (nodes : Nat → Option NodeRec) (in_setup : Nat → Bool)
    (env : SetupEnv) (node_id : Nat) : SetupResult :=
  match nodes node_id with
  | none => ⟨.error .nodeNotExists, in_setup, false, false, 0, false⟩
  | some node =>
      if in_setup node_id then ⟨.ok (), in_setup, false, false, 0, false⟩
      else
        let in_setup1 : Nat → Bool := fun n => n == node_id || in_setup n
        let body := setup_node_body env node
        ⟨body.1, fun n => if n == node_id then false else in_setup1 n,
          true, true, body.2.1, body.2.2⟩

/-! ## Helper lemmas -/

theorem alookup_aset_self (attrs : List (String × MValue)) (k : String)
    (v : MValue) : alookup (aset attrs k v) k = some v := by
  induction attrs with
  | nil => simp [aset, alookup]
  | cons kv rest ih =>
      obtain ⟨k1, v1⟩ := kv
      by_cases h : k1 = k
      · simp [aset, alookup, h]
      · simp [aset, alookup, h, ih]

theorem alookup_aset_ne (attrs : List (String × MValue)) (k k2 : String)
    (v : MValue) (h : k ≠ k2) :
    alookup (aset attrs k v) k2 = alookup attrs k2 := by
  induction attrs with
  | nil => simp [aset, alookup, h]
  | cons kv rest ih =>
      obtain ⟨k1, v1⟩ := kv
      by_cases h1 : k1 = k
      · subst h1
        simp [aset, alookup, h]
      · by_cases h2 : k1 = k2
        · simp [aset, alookup, h1, h2, Ne.symm h]
        · simp [aset, alookup, h1, h2, ih]

theorem foldl_max_le_self (l : List Nat) (b : Nat) : b ≤ l.foldl max b := by
  induction l generalizing b with
  | nil => exact Nat.le_refl b
  | cons x xs ih => exact le_trans (Nat.le_max_left b x) (ih (max b x))

theorem mem_le_foldl_max (l : List Nat) :
    ∀ (b x : Nat), x ∈ l → x ≤ l.foldl max b := by
  induction l with
  | nil => intro b x hx; cases hx
  | cons y ys ih =>
      intro b x hx
      cases hx with
      | head => exact le_trans (Nat.le_max_right b y) (foldl_max_le_self ys (max b y))
      | tail _ h => exact ih (max b y) x h

/-! ## C1 -/

/-- C1 (counterexample): an adapter that reports non-success on each
of its first four attempts (here it would succeed only from attempt 5
on) makes the commission loop raise `NodeCommissionFailed` after only
THREE commissioning calls, with two 5-second sleeps in between — a 4th
commissioning call is never made, contradicting the claimed
`MAX_COMMISSION_RETRIES = 3` plus initial = 4 attempts. -/
theorem commission_loop_three_attempts_not_four :
    (commission_with_code_loop (fun n => decide (4 < n))).calls = [1, 2, 3] ∧
    (commission_with_code_loop (fun n => decide (4 < n))).calls.length ≠ 4 ∧
    (commission_with_code_loop (fun n => decide (4 < n))).sleeps = [5, 5] ∧
    (commission_with_code_loop (fun n => decide (4 < n))).outcome =
      .error .nodeCommissionFailed := by
  refine ⟨?_, ?_, ?_, ?_⟩ <;>
    simp [commission_with_code_loop, commission_attempts, MAX_COMMISSION_RETRIES]

/-- C1 (amended): in `commission_with_code` and `commission_on_network`
the commission loop makes up to 3 attempts (the raise fires as soon as
`attempts >= MAX_COMMISSION_RETRIES = 3`), sleeping 5 seconds between
consecutive attempts, and fails with `NodeCommissionFailed` when the
adapter reports non-success on every attempt. -/
theorem commission_loop_retry_exhaustion (succ : Nat → Bool)
    (hfail : ∀ n, succ n = false) :
    commission_with_code_loop succ =
      ⟨[1, 2, 3], [5, 5], .error .nodeCommissionFailed⟩ ∧
    commission_on_network_loop succ =
      ⟨[1, 2, 3], [5, 5], .error .nodeCommissionFailed⟩ := by
  constructor <;>
    simp [commission_with_code_loop, commission_on_network_loop,
      commission_attempts, MAX_COMMISSION_RETRIES, hfail]

/-- Witness for `commission_loop_retry_exhaustion` at an adapter that
always fails. -/
theorem commission_loop_retry_exhaustion_witness :
    commission_with_code_loop (fun _ => false) =
      ⟨[1, 2, 3], [5, 5], .error .nodeCommissionFailed⟩ :=
  (commission_loop_retry_exhaustion (fun _ => false) (fun _ => rfl)).1

/-! ## C2 -/

/-- C2 (code bug): with the interview raising `NodeInterviewFailed` /
`NodeNotResolving` on every attempt, the loop performs its 3 attempts
(sleeping 5 seconds after each failure) and then falls out of
`while retries:` WITHOUT re-raising: the guard `if retries <= 0:
raise err` is checked before the decrement and `retries` enters the
loop positive, so the raise branch is unreachable for every oracle and
the command proceeds to `_setup_node` instead of surfacing the last
error. -/
theorem interview_retry_swallows_error :
    (commission_interview_loop (fun _ => false)).calls = 3 ∧
    (commission_interview_loop (fun _ => false)).sleeps = [5, 5, 5] ∧
    (commission_interview_loop (fun _ => false)).outcome =
      .proceededAfterRetries ∧
    (∀ (ok : Nat → Bool) (callIdx fuel : Nat) (e : CtrlError),
      (interview_retry_loop ok callIdx fuel).outcome ≠ .raisedToCaller e) := by
  refine ⟨rfl, rfl, rfl, ?_⟩
  intro ok callIdx fuel
  induction fuel generalizing callIdx with
  | zero => intro e; simp [interview_retry_loop]
  | succ n ih =>
      intro e
      simp only [interview_retry_loop]
      split
      · simp
      · split
        · omega
        · exact ih (callIdx + 1) e

/-! ## C3 -/

/-- C3 (counterexample): with `last_node_id` stored as 899999,
`_get_next_node_id` returns 900000, which is not strictly below the
synthetic test-node boundary `TEST_NODE_START = 900000`; the code has
no guard keeping the allocator out of that range. -/
theorem get_next_node_id_reaches_test_range :
    get_next_node_id 899999 = ⟨900000, 900000, true⟩ ∧
    ¬ (get_next_node_id 899999).next < TEST_NODE_START :=
  ⟨rfl, by decide⟩

/-- C3 (amended): `_get_next_node_id` returns `stored_last + 1` and
writes that value back with `force=True` before returning; the
returned id is strictly below 900000 exactly when `stored_last + 1`
is — no guard enforces the test-node boundary. -/
theorem get_next_node_id_spec (stored : Nat) :
    (get_next_node_id stored).next = stored + 1 ∧
    (get_next_node_id stored).written = stored + 1 ∧
    (get_next_node_id stored).force = true ∧
    ((get_next_node_id stored).next < TEST_NODE_START ↔
      stored + 1 < TEST_NODE_START) :=
  ⟨rfl, rfl, rfl, Iff.rfl⟩

/-! ## C10 -/

/-- C10: `ping_node` checks the synthetic test-node range before
checking node existence: every `node_id >= TEST_NODE_START` gets the
canned result map even when absent from the store, while an unknown
`node_id < TEST_NODE_START` raises `NodeNotExists`. -/
theorem ping_node_test_range_before_existence
    (nodes : Nat → Option NodeRec) (node_id : Nat)
    (pingResults : List (String × Bool)) :
    (TEST_NODE_START ≤ node_id →
      ping_node nodes node_id pingResults =
        .ok [("0.0.0.0", true), ("0000:1111:2222:3333:4444", true)]) ∧
    (node_id < TEST_NODE_START → nodes node_id = none →
      ping_node nodes node_id pingResults = .error .nodeNotExists) := by
  constructor
  · intro h
    simp [ping_node, h]
  · intro h hn
    simp [ping_node, Nat.not_le.mpr h, hn]

/-- Witness for `ping_node_test_range_before_existence`: with an empty
store, node id 900123 still gets the canned map and node id 5 raises
`NodeNotExists`. -/
theorem ping_node_test_range_before_existence_witness :
    ping_node (fun _ => none) 900123 [] =
      .ok [("0.0.0.0", true), ("0000:1111:2222:3333:4444", true)] ∧
    ping_node (fun _ => none) 5 [] = .error .nodeNotExists :=
  ⟨(ping_node_test_range_before_existence (fun _ => none) 900123 []).1
      (by decide),
    (ping_node_test_range_before_existence (fun _ => none) 5 []).2
      (by decide) rfl⟩

/-! ## C4 -/

/-- C4 (counterexample): on a bridge node receiving a PartsList update
`[1,2] → [2]` at path `0/29/3`, the handler processes the removed
endpoint (purging `1/`-prefixed keys, emitting `ENDPOINT_REMOVED`) and
returns early: the new value is NOT stored into
`node.attributes["0/29/3"]` and NO `ATTRIBUTE_UPDATED` event is
emitted, contradicting the claim's "in particular" clause. -/
theorem attribute_updated_bridge_partslist_skips_store :
    attribute_updated 1
        ⟨1, true, [("0/29/3", .vList [1, 2]), ("1/29/0", .vInt 7),
          ("2/6/0", .vInt 1)], true, 0⟩
        "0/29/3" (some (.vList [1, 2])) (.vList [2]) =
      .ok ⟨[("0/29/3", .vList [1, 2]), ("2/6/0", .vInt 1)],
        [.endpoint_removed 1 1], true, false, none⟩ ∧
    alookup [("0/29/3", .vList [1, 2]), ("2/6/0", .vInt 1)] "0/29/3" ≠
      some (.vList [2]) ∧
    ServerEvent.attribute_updated 1 "0/29/3" (.vList [2]) ∉
      [ServerEvent.endpoint_removed 1 1] :=
  ⟨rfl, by decide, by decide⟩

/-- C4 (amended): for every update where NOT (the node `is_bridge` and
the path is `0/Descriptor/PartsList`), the handler stores the new
value into `node.attributes[path]`, schedules a node-state write and
emits `ATTRIBUTE_UPDATED (node_id, path, new_value)`; the bridge
PartsList case instead returns early after the endpoint bookkeeping. -/
theorem attribute_updated_stores_and_emits (node_id : Nat) (node : NodeRec)
    (path : String) (old_value : Option MValue) (new_value : MValue)
    (h : ¬(node.is_bridge ∧ path = DESCRIPTOR_PARTS_LIST_ATTRIBUTE_PATH)) :
    attribute_updated node_id node path old_value new_value =
      .ok (attribute_updated_store node_id node path old_value new_value) ∧
    alookup
        (attribute_updated_store node_id node path old_value new_value).attributes
        path = some new_value ∧
    (attribute_updated_store node_id node path old_value
        new_value).writeScheduled = true ∧
    (attribute_updated_store node_id node path old_value new_value).events =
      [.attribute_updated node_id path new_value] := by
  refine ⟨?_, ?_, rfl, rfl⟩
  · simp [attribute_updated, h]
  · simp [attribute_updated_store, alookup_aset_self]

/-- Witness for `attribute_updated_stores_and_emits` on a non-bridge
node at path `1/6/0`. -/
theorem attribute_updated_stores_and_emits_witness :
    attribute_updated 2 ⟨2, true, [("1/6/0", .vInt 0)], false, 0⟩ "1/6/0"
        (some (.vInt 0)) (.vInt 1) =
      .ok (attribute_updated_store 2 ⟨2, true, [("1/6/0", .vInt 0)], false, 0⟩
        "1/6/0" (some (.vInt 0)) (.vInt 1)) ∧
    alookup (attribute_updated_store 2
        ⟨2, true, [("1/6/0", .vInt 0)], false, 0⟩ "1/6/0"
        (some (.vInt 0)) (.vInt 1)).attributes "1/6/0" = some (.vInt 1) :=
  ⟨(attribute_updated_stores_and_emits 2
      ⟨2, true, [("1/6/0", .vInt 0)], false, 0⟩ "1/6/0"
      (some (.vInt 0)) (.vInt 1) (by simp)).1,
    (attribute_updated_stores_and_emits 2
      ⟨2, true, [("1/6/0", .vInt 0)], false, 0⟩ "1/6/0"
      (some (.vInt 0)) (.vInt 1) (by simp)).2.1⟩

/-! ## C5 -/

theorem iterate_resub_unavailable (node_id iv : Nat) :
    ∀ (n c : Nat), (iterate_resub node_id iv ⟨false, c⟩ n).2 = [] := by
  intro n
  induction n with
  | zero => intro c; rfl
  | succ m ih =>
      intro c
      have h := ih (c + 1)
      simp [iterate_resub, resubscription_attempted, h]

/-- C5: every `resubscription_attempted` callback increments the
per-node attempt counter; if the node is available and the counter has
reached `NODE_RESUBSCRIBE_ATTEMPTS_UNAVAILABLE = 3`, `available` flips
to false and exactly one `NODE_UPDATED` is emitted; callbacks on an
unavailable node emit no events, so a run of `n` callbacks starting
available with a fresh counter emits exactly one `NODE_UPDATED` when
`n ≥ 3` and none otherwise. -/
theorem resubscription_attempted_unavailable_transition (node_id iv : Nat) :
    (∀ s : SubState,
      (resubscription_attempted node_id s iv).state.last_subscription_attempt =
        s.last_subscription_attempt + 1) ∧
    (∀ s : SubState, s.available = true →
      NODE_RESUBSCRIBE_ATTEMPTS_UNAVAILABLE ≤ s.last_subscription_attempt + 1 →
      (resubscription_attempted node_id s iv).state.available = false ∧
      (resubscription_attempted node_id s iv).events =
        [ServerEvent.node_updated node_id]) ∧
    (∀ s : SubState, s.available = false →
      (resubscription_attempted node_id s iv).events = []) ∧
    (∀ n : Nat,
      countNodeUpdated node_id (iterate_resub node_id iv ⟨true, 0⟩ n).2 =
        if NODE_RESUBSCRIBE_ATTEMPTS_UNAVAILABLE ≤ n then 1 else 0) := by
  refine ⟨?_, ?_, ?_, ?_⟩
  · intro s
    by_cases h : s.available = true ∧
        NODE_RESUBSCRIBE_ATTEMPTS_UNAVAILABLE ≤ s.last_subscription_attempt + 1 <;>
      simp [resubscription_attempted, h]
  · intro s h1 h2
    constructor <;> simp [resubscription_attempted, h1, h2]
  · intro s h1
    simp [resubscription_attempted, h1]
  · intro n
    match n with
    | 0 => simp [iterate_resub, countNodeUpdated]
    | 1 => simp [iterate_resub, resubscription_attempted, countNodeUpdated,
        NODE_RESUBSCRIBE_ATTEMPTS_UNAVAILABLE]
    | 2 => simp [iterate_resub, resubscription_attempted, countNodeUpdated,
        NODE_RESUBSCRIBE_ATTEMPTS_UNAVAILABLE]
    | (k + 3) =>
        have h3 : (iterate_resub node_id iv ⟨true, 0⟩ (k + 3)).2 =
            ServerEvent.node_updated node_id ::
              (iterate_resub node_id iv ⟨false, 3⟩ k).2 := by
          simp [iterate_resub, resubscription_attempted,
            NODE_RESUBSCRIBE_ATTEMPTS_UNAVAILABLE]
        rw [h3, iterate_resub_unavailable node_id iv k 3]
        simp [countNodeUpdated, NODE_RESUBSCRIBE_ATTEMPTS_UNAVAILABLE,
          Nat.le_add_left]

/-- Witness for `resubscription_attempted_unavailable_transition`:
an available node with two prior attempts flips on the third, and five
callbacks from a fresh counter yield exactly one `NODE_UPDATED`. -/
theorem resubscription_attempted_unavailable_transition_witness :
    (resubscription_attempted 1 ⟨true, 2⟩ 1000).events =
      [ServerEvent.node_updated 1] ∧
    countNodeUpdated 1 (iterate_resub 1 1000 ⟨true, 0⟩ 5).2 = 1 := by
  refine ⟨((resubscription_attempted_unavailable_transition 1 1000).2.1
    ⟨true, 2⟩ rfl (by decide)).2, ?_⟩
  have h := (resubscription_attempted_unavailable_transition 1 1000).2.2.2 5
  simpa using h

/-! ## C7 -/

/-- C7: `open_commissioning_window` fails `NodeNotReady` for unknown
or unavailable nodes; returns cached parameters without calling the
adapter; otherwise uses the supplied discriminator or the
`randint(0, 4095)` draw, calls the adapter with it, caches the
returned parameters and schedules the cache-clear after `timeout`
seconds. -/
theorem open_commissioning_window_spec (nodes : Nat → Option NodeRec)
    (known_params : Nat → Option CommissioningParameters)
    (sdk : Nat → Nat → Nat → Nat → Nat → CommissioningParameters)
    (rand node_id timeout iteration opt : Nat) (discriminator : Option Nat)
    (hrand : rand ≤ 4095) :
    (nodes node_id = none →
      open_commissioning_window nodes known_params sdk rand node_id timeout
        iteration opt discriminator = .error .nodeNotReady) ∧
    (∀ node : NodeRec, nodes node_id = some node → node.available = false →
      open_commissioning_window nodes known_params sdk rand node_id timeout
        iteration opt discriminator = .error .nodeNotReady) ∧
    (∀ (node : NodeRec) (params : CommissioningParameters),
      nodes node_id = some node → node.available = true →
      known_params node_id = some params →
      open_commissioning_window nodes known_params sdk rand node_id timeout
        iteration opt discriminator = .ok ⟨params, none, none, none⟩) ∧
    (∀ node : NodeRec, nodes node_id = some node → node.available = true →
      known_params node_id = none →
      open_commissioning_window nodes known_params sdk rand node_id timeout
        iteration opt discriminator =
        .ok ⟨sdk node_id timeout iteration (discriminator.getD rand) opt,
          some (node_id, timeout, iteration, discriminator.getD rand, opt),
          some (node_id,
            sdk node_id timeout iteration (discriminator.getD rand) opt),
          some (timeout, node_id)⟩ ∧
      (discriminator = none →
        discriminator.getD rand = rand ∧ rand ≤ 4095)) := by
  refine ⟨?_, ?_, ?_, ?_⟩
  · intro h
    simp [open_commissioning_window, h]
  · intro node h ha
    simp [open_commissioning_window, h, ha]
  · intro node params h ha hp
    simp [open_commissioning_window, h, ha, hp]
  · intro node h ha hp
    refine ⟨?_, fun hd => ⟨by simp [hd], hrand⟩⟩
    cases discriminator <;> simp [open_commissioning_window, h, ha, hp]

/-- Witness for `open_commissioning_window_spec`: available node 9,
empty cache, no discriminator supplied, RNG draw 77. -/
theorem open_commissioning_window_spec_witness :
    open_commissioning_window (fun _ => some ⟨9, true, [], false, 0⟩)
        (fun _ => none) (fun _ _ _ d _ => ⟨d, "m", "q"⟩) 77 9 300 1000 1
        none =
      .ok ⟨⟨77, "m", "q"⟩, some (9, 300, 1000, 77, 1),
        some (9, ⟨77, "m", "q"⟩), some (300, 9)⟩ := by
  have h := (open_commissioning_window_spec
      (fun _ => some ⟨9, true, [], false, 0⟩) (fun _ => none)
      (fun _ _ _ d _ => ⟨d, "m", "q"⟩) 77 9 300 1000 1 none
      (by decide)).2.2.2 ⟨9, true, [], false, 0⟩ rfl rfl rfl
  simpa using h.1

/-! ## C9 -/

/-- C9: with an empty node store, `import_test_node` on a
syntactically valid dump raises the untyped Python `TypeError` coming
from `max(TEST_NODE_START)` (unpacking an empty generator leaves `max`
a single non-iterable argument) and imports nothing; with a non-empty
store the first imported node receives
`max(known node ids, TEST_NODE_START) + 1`, strictly above both
`TEST_NODE_START` and every known id. -/
theorem import_test_node_spec :
    (∀ ds : List NodeRec,
      import_test_node [] (some ds) = ([], .error .pyTypeError)) ∧
    (∀ (nodes : List (Nat × NodeRec)) (d0 : NodeRec) (ds : List NodeRec),
      nodes ≠ [] →
      import_test_node nodes (some (d0 :: ds)) =
        (nodes ++
          ((nodes.map Prod.fst).foldl max TEST_NODE_START + 1, d0) ::
            assign_test_ids
              ((nodes.map Prod.fst).foldl max TEST_NODE_START + 2) ds,
          .ok ()) ∧
      TEST_NODE_START < (nodes.map Prod.fst).foldl max TEST_NODE_START + 1 ∧
      (∀ id ∈ nodes.map Prod.fst,
        id < (nodes.map Prod.fst).foldl max TEST_NODE_START + 1)) := by
  constructor
  · intro ds; rfl
  · intro nodes d0 ds hne
    match nodes with
    | [] => exact absurd rfl hne
    | p :: rest =>
        refine ⟨rfl, ?_, ?_⟩
        · have h := foldl_max_le_self ((p :: rest).map Prod.fst) TEST_NODE_START
          omega
        · intro id hid
          have h := mem_le_foldl_max ((p :: rest).map Prod.fst)
            TEST_NODE_START id hid
          omega

/-- Witness for `import_test_node_spec`: store holding node 5, dump
with one node record; the import appends it with id 900001. -/
theorem import_test_node_spec_witness :
    import_test_node [(5, ⟨5, false, [], false, 0⟩)]
        (some [⟨0, false, [], false, 0⟩]) =
      ([(5, ⟨5, false, [], false, 0⟩), (900001, ⟨0, false, [], false, 0⟩)],
        .ok ()) := by
  have h := (import_test_node_spec.2 [(5, ⟨5, false, [], false, 0⟩)]
      ⟨0, false, [], false, 0⟩ [] (List.cons_ne_nil _ _)).1
  exact h.trans (by rfl)

/-! ## C6 -/

theorem read_attribute_diff_spec (node_id : Nat) :
    ∀ (decoded attrs : List (String × MValue)),
      (decoded.map Prod.fst).Nodup →
      (read_attribute_diff node_id attrs decoded).writes =
        decoded.filter (fun kv => decide (¬ dictGet attrs kv.1 = kv.2)) ∧
      (read_attribute_diff node_id attrs decoded).events =
        (read_attribute_diff node_id attrs decoded).writes.map
          (fun kv => ServerEvent.attribute_updated node_id kv.1 kv.2) ∧
      (∀ k v, (k, v) ∈ decoded →
        dictGet (read_attribute_diff node_id attrs decoded).attributes k =
          v) ∧
      (∀ k, k ∉ decoded.map Prod.fst →
        alookup (read_attribute_diff node_id attrs decoded).attributes k =
          alookup attrs k) := by
  intro decoded
  induction decoded with
  | nil =>
      intro attrs _
      exact ⟨rfl, rfl, fun k v h => absurd h (List.not_mem_nil _),
        fun k _ => rfl⟩
  | cons kv rest ih =>
      obtain ⟨k0, v0⟩ := kv
      intro attrs hnodup
      rw [List.map_cons] at hnodup
      have hk0 : k0 ∉ rest.map Prod.fst := (List.nodup_cons.mp hnodup).1
      have hrest : (rest.map Prod.fst).Nodup := (List.nodup_cons.mp hnodup).2
      by_cases hch : dictGet attrs k0 = v0
      · obtain ⟨ihw, ihe, ihmem, ihout⟩ := ih attrs hrest
        refine ⟨?_, ?_, ?_, ?_⟩
        · simpa [read_attribute_diff, hch] using ihw
        · simpa [read_attribute_diff, hch] using ihe
        · intro k v hm
          rcases List.mem_cons.mp hm with heq | hm2
          · rw [Prod.mk.injEq] at heq
            obtain ⟨rfl, rfl⟩ := heq
            have hpres : dictGet
                (read_attribute_diff node_id attrs rest).attributes k =
                dictGet attrs k := by
              simp [dictGet, ihout k hk0]
            simpa [read_attribute_diff, hch] using hpres.trans hch
          · simpa [read_attribute_diff, hch] using ihmem k v hm2
        · intro k hk
          have hkrest : k ∉ rest.map Prod.fst :=
            fun h => hk (List.mem_cons_of_mem _ h)
          simpa [read_attribute_diff, hch] using ihout k hkrest
      · obtain ⟨ihw, ihe, ihmem, ihout⟩ := ih (aset attrs k0 v0) hrest
        have hfilt : rest.filter
              (fun kv => !decide (dictGet (aset attrs k0 v0) kv.1 = kv.2)) =
            rest.filter
              (fun kv => !decide (dictGet attrs kv.1 = kv.2)) := by
          apply List.filter_congr
          intro kv hkv
          have hne : k0 ≠ kv.1 := by
            intro he
            exact hk0 (he ▸ List.mem_map_of_mem Prod.fst hkv)
          simp [dictGet, alookup_aset_ne attrs k0 kv.1 v0 hne]
        refine ⟨?_, ?_, ?_, ?_⟩
        · simp [read_attribute_diff, hch, ihw, hfilt]
        · simp [read_attribute_diff, hch, ihe]
        · intro k v hm
          rcases List.mem_cons.mp hm with heq | hm2
          · rw [Prod.mk.injEq] at heq
            obtain ⟨rfl, rfl⟩ := heq
            have hch2 : ¬ (alookup attrs k).getD MValue.vNull = v := hch
            simp [read_attribute_diff, dictGet, hch2, ihout k hk0,
              alookup_aset_self attrs k v]
          · simpa [read_attribute_diff, hch] using ihmem k v hm2
        · intro k hk
          have hkne : k0 ≠ k := by
            intro he
            exact hk (he ▸ List.mem_cons_self _ _)
          have hkrest : k ∉ rest.map Prod.fst :=
            fun h => hk (List.mem_cons_of_mem _ h)
          have hpres := ihout k hkrest
          simp [read_attribute_diff, hch, hpres,
            alookup_aset_ne attrs k0 k v0 hkne]

/-- C6: for a known, available, non-synthetic node, `read_attribute`
returns the full decoded adapter map while diffing it against the
cached attributes with the source's `node.attributes.get(attr_path)
!= value` test (`dict.get`, so a missing key reads as null): exactly
the keys whose decoded value differs from the cached one are written
back and each produces one `ATTRIBUTE_UPDATED` event; a key whose
decoded value equals the cached value — including a decoded null at an
uncached path — produces no event and no cache write; a node-state
write is scheduled iff at least one value changed. -/
theorem read_attribute_spec (nodes : Nat → Option NodeRec) (node_id : Nat)
    (paths : List String) (decoded : List (String × MValue)) (node : NodeRec)
    (hnode : nodes node_id = some node) (havail : node.available = true)
    (hreal : node_id < TEST_NODE_START)
    (hkeys : (decoded.map Prod.fst).Nodup) :
    read_attribute nodes node_id paths decoded =
      .ok ⟨decoded,
        (read_attribute_diff node_id node.attributes decoded).attributes,
        (read_attribute_diff node_id node.attributes decoded).events,
        (read_attribute_diff node_id node.attributes decoded).writes,
        decide
          ((read_attribute_diff node_id node.attributes decoded).writes ≠ [])⟩ ∧
    (read_attribute_diff node_id node.attributes decoded).writes =
      decoded.filter
        (fun kv => decide (¬ dictGet node.attributes kv.1 = kv.2)) ∧
    (read_attribute_diff node_id node.attributes decoded).events =
      (read_attribute_diff node_id node.attributes decoded).writes.map
        (fun kv => ServerEvent.attribute_updated node_id kv.1 kv.2) ∧
    (∀ k v, (k, v) ∈ decoded →
      dictGet (read_attribute_diff node_id node.attributes decoded).attributes
        k = v) ∧
    (∀ k, k ∉ decoded.map Prod.fst →
      alookup (read_attribute_diff node_id node.attributes decoded).attributes
        k = alookup node.attributes k) := by
  obtain ⟨h1, h2, h3, h4⟩ :=
    read_attribute_diff_spec node_id decoded node.attributes hkeys
  refine ⟨?_, h1, h2, h3, h4⟩
  simp [read_attribute, hnode, havail, Nat.not_le.mpr hreal]

/-- Witness for `read_attribute_spec`: node 5 caches
`1/6/0 = 1, 1/8/0 = 3`; the decoded read reports `1/6/0 = 1`
(unchanged: no write, no event), `1/8/0 = 4` (changed: written back,
one `ATTRIBUTE_UPDATED`, write scheduled) and a null at the uncached
path `2/0/0` (equal to `dict.get`'s None default: no write, no event,
key left uncached). -/
theorem read_attribute_spec_witness :
    read_attribute
        (fun n => if n == 5 then
          some ⟨5, true, [("1/6/0", .vInt 1), ("1/8/0", .vInt 3)], false, 0⟩
          else none)
        5 ["1/6/0", "1/8/0", "2/0/0"]
        [("1/6/0", .vInt 1), ("1/8/0", .vInt 4), ("2/0/0", .vNull)] =
      .ok ⟨[("1/6/0", .vInt 1), ("1/8/0", .vInt 4), ("2/0/0", .vNull)],
        [("1/6/0", .vInt 1), ("1/8/0", .vInt 4)],
        [.attribute_updated 5 "1/8/0" (.vInt 4)],
        [("1/8/0", .vInt 4)], true⟩ := by
  have h := (read_attribute_spec
      (fun n => if n == 5 then
        some ⟨5, true, [("1/6/0", .vInt 1), ("1/8/0", .vInt 3)], false, 0⟩
        else none)
      5 ["1/6/0", "1/8/0", "2/0/0"]
      [("1/6/0", .vInt 1), ("1/8/0", .vInt 4), ("2/0/0", .vNull)]
      ⟨5, true, [("1/6/0", .vInt 1), ("1/8/0", .vInt 3)], false, 0⟩
      rfl rfl (by decide) (by decide)).1
  exact h.trans (by rfl)

/-! ## C8 -/

/-- C8: `_setup_node` raises `NodeNotExists` for an unknown node id
(leaving `_nodes_in_setup` untouched); it is a no-op when the node id
is already in `_nodes_in_setup` (no adapter call, no watchdog, state
unchanged) — hence a node id appears in `_nodes_in_setup` at most once
concurrently; and on every other run, whatever the body does (success,
caught early return or propagated exception), the `finally` block
leaves the node id removed from `_nodes_in_setup`, the watchdog armed
and cancelled, and every other id's membership unchanged. -/
theorem setup_node_invariants (nodes : Nat → Option NodeRec)
    (in_setup : Nat → Bool) (env : SetupEnv) (node_id : Nat) :
    (nodes node_id = none →
      setup_node nodes in_setup env node_id =
        ⟨.error .nodeNotExists, in_setup, false, false, 0, false⟩) ∧
    (nodes node_id ≠ none → in_setup node_id = true →
      setup_node nodes in_setup env node_id =
        ⟨.ok (), in_setup, false, false, 0, false⟩) ∧
    (nodes node_id ≠ none → in_setup node_id = false →
      (setup_node nodes in_setup env node_id).nodes_in_setup node_id =
        false ∧
      (setup_node nodes in_setup env node_id).watchdogArmed = true ∧
      (setup_node nodes in_setup env node_id).watchdogCancelled = true ∧
      ∀ m, m ≠ node_id →
        (setup_node nodes in_setup env node_id).nodes_in_setup m =
          in_setup m) := by
  refine ⟨?_, ?_, ?_⟩
  · intro hnone
    simp [setup_node, hnone]
  · intro hne hin
    rcases h : nodes node_id with _ | node
    · exact absurd h hne
    · simp [setup_node, h, hin]
  · intro hne hin
    rcases h : nodes node_id with _ | node
    · exact absurd h hne
    · refine ⟨?_, ?_, ?_, ?_⟩
      · simp [setup_node, h, hin]
      · simp [setup_node, h, hin]
      · simp [setup_node, h, hin]
      · intro m hm
        simp [setup_node, h, hin, hm]

/-- Witness for `setup_node_invariants`: node 1 known; a fresh run
leaves 1 out of `_nodes_in_setup`, and a run while 1 is already in
setup is a no-op. -/
theorem setup_node_invariants_witness :
    (setup_node (fun n => if n == 1 then some ⟨1, false, [], false, 0⟩
        else none) (fun _ => false) ⟨.ok, .ok, .ok, []⟩ 1).nodes_in_setup 1 =
      false ∧
    setup_node (fun n => if n == 1 then some ⟨1, false, [], false, 0⟩
        else none) (fun n => n == 1) ⟨.ok, .ok, .ok, []⟩ 1 =
      ⟨.ok (), fun n => n == 1, false, false, 0, false⟩ := by
  constructor
  · exact ((setup_node_invariants
      (fun n => if n == 1 then some ⟨1, false, [], false, 0⟩ else none)
      (fun _ => false) ⟨.ok, .ok, .ok, []⟩ 1).2.2 (by simp) rfl).1
  · exact (setup_node_invariants
      (fun n => if n == 1 then some ⟨1, false, [], false, 0⟩ else none)
      (fun n => n == 1) ⟨.ok, .ok, .ok, []⟩ 1).2.1 (by simp) rfl
